import Mathlib

/-!
Shallow embedding of the Quick-SNTP-POC client (`src/ntp.rs`, `src/util.rs`)
and proofs about its timestamp codec, packet construction, reply validation,
offset computation and network-layer reply checks.

Modelling conventions:
* Machine integers (`u8`, `u32`, `u64`) are `Nat` with explicit `% 2^w`
  wherever Rust wrapping semantics matter.
* `f64` arithmetic on seconds is modelled by exact rationals `ℚ`.
* `SystemTime` values are rationals counting seconds since the Unix epoch;
  `Duration` values are nonnegative rationals of seconds.
* A Rust `panic!` inside a modelled function is represented by `Option`
  returning `none`.
* The `u64::to_be` at encode time and `u64::from_be` at decode time cancel;
  timestamps are modelled by their logical (big-endian-interpreted) `u64`
  value, so both byte-order conversions are omitted.
* Clock reads (`SystemTime::now`) become explicit arguments.
-/

namespace QuickSntp

/-- Constant `NTP_TO_UNIX_DURATION`: seconds between the NTP era (1900-01-01)
and the Unix epoch (1970-01-01). -/
def ntpToUnixSecs : ℕ := 2208988800

/-- Constant `NTP_PACKET_SIZE`. -/
def NTP_PACKET_SIZE : ℕ := 48

/-- Constant `NTP_VERSION`. -/
def NTP_VERSION : ℕ := 4

/-- `NtpError`: message-carrying failure value. -/
structure NtpError where
  msg : String
deriving DecidableEq

/-- `Mode` enum, `repr(u8)` discriminants 0, 3, 4. -/
inductive Mode
  | Reserved
  | Client
  | Server
deriving DecidableEq

/-- Discriminant of a `Mode` value (`as u8`). -/
def Mode.val : Mode → ℕ
  | .Reserved => 0
  | .Client => 3
  | .Server => 4

/-- `TryFrom<u8> for Mode`, generated by the `tryfrom_enum!` macro in
`util.rs`: sequentially compares the input with each discriminant and
fails on anything unmapped. -/
def Mode.tryFrom (n : ℕ) : Option Mode :=
  if n = Mode.Reserved.val then some .Reserved
  else if n = Mode.Client.val then some .Client
  else if n = Mode.Server.val then some .Server
  else none

/-- `Leap` enum, `repr(u8)` discriminants 0, 1, 2, 3. -/
inductive Leap
  | NoWarning
  | LastHas61
  | LastHas59
  | Unknown
deriving DecidableEq

/-- Discriminant of a `Leap` value (`as u8`). -/
def Leap.val : Leap → ℕ
  | .NoWarning => 0
  | .LastHas61 => 1
  | .LastHas59 => 2
  | .Unknown => 3

/-- `TryFrom<u8> for Leap`, generated by `tryfrom_enum!`. -/
def Leap.tryFrom (n : ℕ) : Option Leap :=
  if n = Leap.NoWarning.val then some .NoWarning
  else if n = Leap.LastHas61.val then some .LastHas61
  else if n = Leap.LastHas59.val then some .LastHas59
  else if n = Leap.Unknown.val then some .Unknown
  else none

/-- `TimeStamp::now`, with the clock reading passed in as the pair
`(unixSec, unixNano)` of whole seconds and nanosecond remainder since the
Unix epoch (`nano < 10^9` for any real clock reading). The code computes
`(sec << 32) | nano` on `u64` after adding the epoch offset; since
`nano < 2^32` the bitwise-or is addition and the `u64` wrap of the shift
is `% 2^32` on the seconds, giving the value below. The trailing
`u64::to_be` is omitted (see module conventions). -/
def TimeStamp.now (unixSec unixNano : ℕ) : ℕ :=
  ((unixSec + ntpToUnixSecs) % 2^32) * 2^32 + unixNano % 2^32

/-- `TimeStamp::decode`: splits the raw 64-bit value into high-32 seconds and
low-32 "nanoseconds", fails when the seconds precede the Unix epoch, and
otherwise returns the `SystemTime` as rational seconds since the Unix epoch
(`Duration::new(sec, nano)` has value `sec + nano/10^9` and subtracting
`NTP_TO_UNIX_DURATION` is exact here because `sec ≥ ntpToUnixSecs`). -/
def TimeStamp.decode (t : ℕ) : Option ℚ :=
  let sec : ℕ := t / 2^32
  let nano : ℕ := t % 2^32
  if sec < ntpToUnixSecs then none
  else some ((sec : ℚ) + (nano : ℚ) / 10^9 - (ntpToUnixSecs : ℚ))

/-- `Packet` struct. Timestamps are stored as their raw `u64` values
(`TimeStamp.time`). The source field `rec` is renamed `recTs` because `rec`
is reserved for the recursor in Lean. -/
structure Packet where
  flags : ℕ
  stratum : ℕ
  poll : ℤ
  precision : ℤ
  rootdelay : ℕ
  rootdisp : ℕ
  refid : ℕ
  reftime : ℕ
  org : ℕ
  recTs : ℕ
  xmt : ℕ
deriving DecidableEq

/-- `Packet::flags`: packs leap, version and mode into one byte. Each `u8`
shift wraps modulo 256 (no wrap actually occurs for the values used). -/
def Packet.flagsByte (leap : Leap) (version : ℕ) (mode : Mode) : ℕ :=
  ((leap.val <<< 6) % 256) ||| ((version <<< 3) % 256) ||| mode.val

/-- `Packet::new_client_packet`, with the clock reading already encoded as
the raw transmit timestamp `nowRaw` (`TimeStamp::now()`). -/
def Packet.new_client_packet (nowRaw : ℕ) : Packet :=
  { flags := Packet.flagsByte Leap.Unknown NTP_VERSION Mode.Client
    stratum := 0
    poll := 0
    precision := 0
    rootdelay := 0
    rootdisp := 0
    refid := 0
    reftime := 0
    org := 0
    recTs := 0
    xmt := nowRaw }

/-- `Packet::leap`: the top two bits of the flags byte, mapped through
`Leap::try_from`. -/
def Packet.leap (p : Packet) : Option Leap :=
  Leap.tryFrom (p.flags >>> 6)

/-- `Packet::mode`: the low three bits of the flags byte, mapped through
`Mode::try_from`. -/
def Packet.mode (p : Packet) : Option Mode :=
  Mode.tryFrom (p.flags &&& 0x7)

/-- `Packet::duration_since_unix_epoch`: decode a timestamp and take its
duration since the Unix epoch (`duration_since` fails on a pre-epoch
instant, which cannot occur after a successful decode). -/
def Packet.duration_since_unix_epoch (t : ℕ) : Option ℚ :=
  match TimeStamp.decode t with
  | none => none
  | some st => if st < 0 then none else some st

/-- `Packet::timestamps`: durations since the Unix epoch of the originate,
receive and transmit timestamps of a reply. -/
def Packet.timestamps (p : Packet) : Option (ℚ × ℚ × ℚ) := do
  let t1 ← Packet.duration_since_unix_epoch p.org
  let t2 ← Packet.duration_since_unix_epoch p.recTs
  let t3 ← Packet.duration_since_unix_epoch p.xmt
  pure (t1, t2, t3)

/-- Socket address: IP address and port, with the address modelled
abstractly as a natural number (only equality is used). -/
structure SockAddr where
  ip : ℕ
  port : ℕ
deriving DecidableEq

/-- The error value produced for a sender or size mismatch. -/
def unexpectedReply : NtpError := ⟨"Unexpected reply"⟩

/-- Validation part of `NtpNet::receive_packet`: after `recv_from` returns
the datagram size and sender address, the reply is accepted only when the
sender matches the server address and the size is exactly
`NTP_PACKET_SIZE`. -/
def NtpNet.receive_packet (serverAddr sender : SockAddr) (size : ℕ) :
    Except NtpError Unit :=
  if sender.ip ≠ serverAddr.ip ∨ sender.port ≠ serverAddr.port
      ∨ size ≠ NTP_PACKET_SIZE then
    .error unexpectedReply
  else
    .ok ()

/-- `SyncResult` struct; `estimated_time` is a `SystemTime` modelled as
rational seconds since the Unix epoch. -/
structure SyncResult where
  estimated_time : ℚ
  offset : ℚ
  delay : ℚ
  leap : Leap
deriving DecidableEq

/-- `Duration::from_secs_f64` from the standard library: panics when the
value is negative (or non-finite/overflowing, which `ℚ` cannot express);
the panic is modelled by `none`. -/
def Duration.from_secs_f64 (x : ℚ) : Option ℚ :=
  if x < 0 then none else some x

/-- `SyncResult::new`, with the clock reading `now` passed in as rational
seconds since the Unix epoch. `none` models the panic raised by
`Duration::from_secs_f64` on a negative offset. -/
def SyncResult.new (now offset delay : ℚ) (leap : Leap) : Option SyncResult :=
  (Duration.from_secs_f64 offset).map
    fun d => ⟨now + d, offset, delay, leap⟩

/-- `NtpSync::should_discard_received_packet`. -/
def NtpSync.should_discard_received_packet (packet : Packet) : Bool :=
  match packet.mode with
  | none => true
  | some mode =>
    packet.stratum == 0
      || mode != Mode.Server
      || packet.org == 0
      || packet.recTs == 0
      || packet.xmt == 0

/-- The reply-validation step of `NtpSync::sync` as called at its call site:
the request packet `outPacket` is in scope there but the verdict consults
only the reply. -/
def NtpSync.syncVerdict (outPacket reply : Packet) : Bool :=
  NtpSync.should_discard_received_packet reply

/-- `NtpSync::compute_time`, with the client receive instant `t4` and the
clock reading `now` used by `SyncResult::new` passed in as rational seconds
since the Unix epoch. The result's inner `Option` models the possible panic
inside `SyncResult::new` (see `Duration.from_secs_f64`). -/
def NtpSync.compute_time (packet : Packet) (t4 now : ℚ) :
    Except NtpError (Option SyncResult) :=
  match packet.timestamps with
  | none => .error ⟨"Failed to decode timestamps from reply"⟩
  | some (t1, t2, t3) =>
    match packet.leap with
    | none => .error ⟨"Failed to decode leap field in the reply"⟩
    | some leap =>
      let offset := ((t2 - t1) + (t3 - t4)) / 2
      let delay := (t4 - t1) - (t3 - t2)
      .ok (SyncResult.new now offset delay leap)

/-- Reply packet carrying the worked example of the spec: originate
10.000 s, receive 10.005 s and transmit 10.006 s after the Unix epoch,
flags `0b00_100_100` (leap `NoWarning`, version 4, mode `Server`). -/
def examplePacket : Packet :=
  { flags := 36
    stratum := 2
    poll := 0
    precision := 0
    rootdelay := 0
    rootdisp := 0
    refid := 0
    reftime := 0
    org := TimeStamp.now 10 0
    recTs := TimeStamp.now 10 5000000
    xmt := TimeStamp.now 10 6000000 }

end QuickSntp

namespace QuickSntp

/-- Whole-second and nanosecond components below the `u32` wrap threshold
encode without wrapping. -/
lemma timeStamp_now_eq (sec nano : ℕ) (h9 : nano < 10^9)
    (h32 : sec + ntpToUnixSecs < 2^32) :
    TimeStamp.now sec nano = (sec + ntpToUnixSecs) * 2^32 + nano := by
  unfold TimeStamp.now
  rw [Nat.mod_eq_of_lt h32, Nat.mod_eq_of_lt (by norm_num at h9 ⊢; omega)]

/-- C1: for the four exchange timestamps t1 (originate), t2 (server
receive), t3 (server transmit) and t4 (client receive), all in seconds
since the Unix epoch, `compute_time` produces
offset = ((t2 - t1) + (t3 - t4)) / 2 and
delay = (t4 - t1) - (t3 - t2); in particular for t1 = 10.000, t2 = 10.005,
t3 = 10.006, t4 = 10.002 the offset is 0.0045 and the delay is 0.001. -/
theorem C1_offset_delay_formula :
    (∀ (p : Packet) (t4 now : ℚ) (r : SyncResult),
        NtpSync.compute_time p t4 now = .ok (some r) →
        ∃ t1 t2 t3, p.timestamps = some (t1, t2, t3) ∧
          r.offset = ((t2 - t1) + (t3 - t4)) / 2 ∧
          r.delay = (t4 - t1) - (t3 - t2)) ∧
    NtpSync.compute_time examplePacket (5001/500) 0 =
      .ok (some ⟨9/2000, 9/2000, 1/1000, Leap.NoWarning⟩) := by
  constructor
  · intro p t4 now r h
    cases hts : p.timestamps with
    | none => simp [NtpSync.compute_time, hts] at h
    | some t =>
      obtain ⟨t1, t2, t3⟩ := t
      cases hl : p.leap with
      | none => simp [NtpSync.compute_time, hts, hl] at h
      | some lp =>
        simp only [NtpSync.compute_time, hts, hl, Except.ok.injEq] at h
        unfold SyncResult.new Duration.from_secs_f64 at h
        split at h
        · simp at h
        · simp only [Option.map_some', Option.some.injEq] at h
          cases h
          exact ⟨t1, t2, t3, rfl, rfl, rfl⟩
  · norm_num [NtpSync.compute_time, examplePacket, Packet.timestamps,
      Packet.duration_since_unix_epoch, TimeStamp.decode, TimeStamp.now,
      ntpToUnixSecs, Packet.leap, Leap.tryFrom, Leap.val, SyncResult.new,
      Duration.from_secs_f64]
    rw [show (36 : ℕ) >>> 6 = 0 from by decide]
    norm_num

/-- Witness for C1: instantiating the formula on the worked-example packet
at t4 = 10.002 s, with the hypothesis discharged by the concrete evaluation
proved in the second half of the theorem. -/
theorem C1_offset_delay_formula_witness :
    ∃ t1 t2 t3, examplePacket.timestamps = some (t1, t2, t3) ∧
      (⟨9/2000, 9/2000, 1/1000, Leap.NoWarning⟩ : SyncResult).offset
        = ((t2 - t1) + (t3 - 5001/500)) / 2 ∧
      (⟨9/2000, 9/2000, 1/1000, Leap.NoWarning⟩ : SyncResult).delay
        = (5001/500 - t1) - (t3 - t2) :=
  C1_offset_delay_formula.1 examplePacket (5001/500) 0
    ⟨9/2000, 9/2000, 1/1000, Leap.NoWarning⟩ C1_offset_delay_formula.2

/-- C2: for every instant on or after the Unix epoch whose seconds since
1900 fit in 32 bits, decoding the encoded 64-bit timestamp reproduces the
instant within the nanosecond resolution of the source instant (the round
trip is in fact exact, since the encoder stores the nanosecond count and
the decoder reads it back unchanged). -/
theorem C2_roundtrip (sec nano : ℕ) (h9 : nano < 10^9)
    (h32 : sec + ntpToUnixSecs < 2^32) :
    ∃ d, TimeStamp.decode (TimeStamp.now sec nano) = some d ∧
      |d - ((sec : ℚ) + (nano : ℚ) / 10^9)| ≤ 1 / 10^9 := by
  refine ⟨(sec : ℚ) + (nano : ℚ) / 10^9, ?_, by simp⟩
  rw [timeStamp_now_eq sec nano h9 h32]
  have h32' : nano < 2^32 := by norm_num at h9 ⊢; omega
  unfold TimeStamp.decode
  have hdiv : ((sec + ntpToUnixSecs) * 2^32 + nano) / 2^32
      = sec + ntpToUnixSecs := by
    rw [mul_comm, Nat.mul_add_div (by norm_num), Nat.div_eq_of_lt h32',
      Nat.add_zero]
  have hmod : ((sec + ntpToUnixSecs) * 2^32 + nano) % 2^32 = nano := by
    rw [mul_comm, Nat.mul_add_mod, Nat.mod_eq_of_lt h32']
  rw [hdiv, hmod, if_neg (by omega)]
  congr 1
  push_cast
  ring

/-- Witness for C2 at the instant 5 s + 123456789 ns after the Unix
epoch. -/
theorem C2_roundtrip_witness :
    ∃ d, TimeStamp.decode (TimeStamp.now 5 123456789) = some d ∧
      |d - ((5 : ℚ) + (123456789 : ℚ) / 10^9)| ≤ 1 / 10^9 :=
  C2_roundtrip 5 123456789 (by norm_num) (by norm_num [ntpToUnixSecs])

/-- C3 (code evaluation at the failing input): `SyncResult::new` panics on
every negative offset, because `Duration::from_secs_f64` rejects negative
values (`none` models the panic); a nonnegative offset succeeds with
`estimated_time = now + offset`. The claim says construction succeeds for
every offset, including negative ones. -/
theorem C3_negative_offset_panics :
    SyncResult.new 1000 (-1/2000) (1/1000) Leap.NoWarning = none ∧
    SyncResult.new 1000 (1/2000) (1/1000) Leap.NoWarning
      = some ⟨1000 + 1/2000, 1/2000, 1/1000, Leap.NoWarning⟩ := by
  constructor
  · rw [SyncResult.new, Duration.from_secs_f64, if_pos (by norm_num)]
    rfl
  · rw [SyncResult.new, Duration.from_secs_f64, if_neg (by norm_num)]
    rfl

/-- C4: the validator discards a reply iff the mode field fails to decode
or decodes to something other than `Server`, or the stratum is 0, or any of
the org, rec, xmt timestamps is the all-zero sentinel; it is a total
Boolean function of the packet, hence a pure predicate. -/
theorem C4_validator_characterization (p : Packet) :
    NtpSync.should_discard_received_packet p = true ↔
      (p.mode ≠ some Mode.Server ∨ p.stratum = 0
        ∨ p.org = 0 ∨ p.recTs = 0 ∨ p.xmt = 0) := by
  unfold NtpSync.should_discard_received_packet
  cases h : p.mode with
  | none => simp [h]
  | some m =>
    simp only [h, Bool.or_eq_true, beq_iff_eq, bne_iff_ne, ne_eq,
      Option.some.injEq]
    tauto

/-- C5: decoding a raw 64-bit timestamp yields `none` iff its high-32-bit
seconds part is below the epoch-offset constant 2208988800; in particular
the all-zero timestamp decodes to `none`, never to the Unix epoch. -/
theorem C5_decode_none_iff :
    (∀ t : ℕ, t < 2^64 →
      (TimeStamp.decode t = none ↔ t / 2^32 < ntpToUnixSecs)) ∧
    TimeStamp.decode 0 = none := by
  constructor
  · intro t _
    simp only [TimeStamp.decode]
    split <;> simp_all
  · rfl

/-- Witness for C5: the zero sentinel decodes to `none`, while the raw
value with seconds part exactly 2208988800 does not. -/
theorem C5_decode_none_iff_witness :
    TimeStamp.decode 0 = none ∧
      TimeStamp.decode (2208988800 * 2^32) ≠ none := by
  refine ⟨C5_decode_none_iff.2, fun hn => ?_⟩
  have h := (C5_decode_none_iff.1 (2208988800 * 2^32)
    (by norm_num)).mp hn
  rw [Nat.mul_div_cancel _ (by norm_num)] at h
  exact absurd h (by norm_num [ntpToUnixSecs])

/-- C6 counterexample: at the instant half a second after the Unix epoch
the encoder's low 32 bits are the raw nanosecond count 500000000, and
low / 2^32 differs from the fractional second 0.5 by about 0.38, far
beyond the fixed-point resolution 2^-31; so the low 32 bits are not a
fractional-second numerator over 2^32 as the claim states. -/
theorem C6_fraction_counterexample :
    ¬ (|((TimeStamp.now 0 500000000 % 2^32 : ℕ) : ℚ) / 2^32
        - (500000000 : ℚ) / 10^9| ≤ 1 / 2^31) := by
  norm_num [TimeStamp.now, ntpToUnixSecs]
  rw [show |(6435483 : ℚ) / 16777216| = 6435483 / 16777216 from
    abs_of_pos (by norm_num)]
  norm_num

/-- C6 as amended: the encoded timestamp has the instant's whole seconds
since the NTP epoch in its high 32 bits, and in its low 32 bits the raw
nanosecond remainder — a fractional-second numerator over 10^9, not over
2^32 — so low-32-bits / 10^9 equals the fractional second. -/
theorem C6_encoder_layout (sec nano : ℕ) (h9 : nano < 10^9)
    (h32 : sec + ntpToUnixSecs < 2^32) :
    TimeStamp.now sec nano / 2^32 = sec + ntpToUnixSecs ∧
    TimeStamp.now sec nano % 2^32 = nano ∧
    ((TimeStamp.now sec nano % 2^32 : ℕ) : ℚ) / 10^9
      = (nano : ℚ) / 10^9 := by
  have h32' : nano < 2^32 := by norm_num at h9 ⊢; omega
  rw [timeStamp_now_eq sec nano h9 h32]
  have hdiv : ((sec + ntpToUnixSecs) * 2^32 + nano) / 2^32
      = sec + ntpToUnixSecs := by
    rw [mul_comm, Nat.mul_add_div (by norm_num), Nat.div_eq_of_lt h32',
      Nat.add_zero]
  have hmod : ((sec + ntpToUnixSecs) * 2^32 + nano) % 2^32 = nano := by
    rw [mul_comm, Nat.mul_add_mod, Nat.mod_eq_of_lt h32']
  exact ⟨hdiv, hmod, by rw [hmod]⟩

/-- Witness for the amended C6 at the instant 0.5 s after the Unix
epoch. -/
theorem C6_encoder_layout_witness :
    TimeStamp.now 0 500000000 / 2^32 = 0 + ntpToUnixSecs ∧
    TimeStamp.now 0 500000000 % 2^32 = 500000000 ∧
    ((TimeStamp.now 0 500000000 % 2^32 : ℕ) : ℚ) / 10^9
      = (500000000 : ℚ) / 10^9 :=
  C6_encoder_layout 0 500000000 (by norm_num) (by norm_num [ntpToUnixSecs])

/-- C7: the client request packet has leap = Unknown (the spec's
"Unsynchronized"), version = 4 and mode = Client packed into the flags byte
(value 227), its transmit timestamp set to the current time, and every
other field zero. -/
theorem C7_client_packet_fields (nowRaw : ℕ) :
    (Packet.new_client_packet nowRaw).flags
        = Packet.flagsByte Leap.Unknown NTP_VERSION Mode.Client ∧
    (Packet.new_client_packet nowRaw).flags = 227 ∧
    (Packet.new_client_packet nowRaw).leap = some Leap.Unknown ∧
    (Packet.new_client_packet nowRaw).mode = some Mode.Client ∧
    ((Packet.new_client_packet nowRaw).flags >>> 3) % 8 = NTP_VERSION ∧
    (Packet.new_client_packet nowRaw).xmt = nowRaw ∧
    (Packet.new_client_packet nowRaw).stratum = 0 ∧
    (Packet.new_client_packet nowRaw).poll = 0 ∧
    (Packet.new_client_packet nowRaw).precision = 0 ∧
    (Packet.new_client_packet nowRaw).rootdelay = 0 ∧
    (Packet.new_client_packet nowRaw).rootdisp = 0 ∧
    (Packet.new_client_packet nowRaw).refid = 0 ∧
    (Packet.new_client_packet nowRaw).reftime = 0 ∧
    (Packet.new_client_packet nowRaw).org = 0 ∧
    (Packet.new_client_packet nowRaw).recTs = 0 := by
  refine ⟨rfl, ?_, ?_, ?_, ?_, rfl, rfl, rfl, rfl, rfl, rfl, rfl, rfl,
    rfl, rfl⟩ <;>
    simp only [Packet.new_client_packet, Packet.leap, Packet.mode] <;> decide

/-- C8: a datagram passes the network-layer check iff the sender IP and
port both equal the server address used for sending and the size is
exactly 48 bytes; every failing datagram yields the "Unexpected reply"
error. -/
theorem C8_receive_accept_iff (serverAddr sender : SockAddr) (size : ℕ) :
    (NtpNet.receive_packet serverAddr sender size = .ok () ↔
      (sender.ip = serverAddr.ip ∧ sender.port = serverAddr.port
        ∧ size = 48)) ∧
    (NtpNet.receive_packet serverAddr sender size = .ok () ∨
      NtpNet.receive_packet serverAddr sender size
        = .error unexpectedReply) := by
  unfold NtpNet.receive_packet
  constructor
  · split
    case isTrue h =>
      refine iff_of_false (by simp) ?_
      rintro ⟨h1, h2, h3⟩
      rcases h with h | h | h
      · exact h h1
      · exact h h2
      · exact h (by simpa [NTP_PACKET_SIZE] using h3)
    case isFalse h =>
      push_neg at h
      exact iff_of_true rfl
        ⟨h.1, h.2.1, by simpa [NTP_PACKET_SIZE] using h.2.2⟩
  · split
    · right; rfl
    · left; rfl

/-- The two-bit leap ordinal always has a matching `Leap` variant. -/
lemma leapTryFrom_isSome (n : ℕ) (h : n < 4) :
    (Leap.tryFrom n).isSome = true := by
  interval_cases n <;> decide

/-- C9: for every flags byte, extracting the leap indicator from the top
two bits succeeds; `Mode::try_from` fails exactly on the ordinals other
than 0, 3 and 4; and consequently the leap-decode failure branch of
`compute_time` is unreachable. -/
theorem C9_leap_total_mode_gaps :
    (∀ p : Packet, p.flags < 256 → (p.leap).isSome = true) ∧
    (∀ n : ℕ, Mode.tryFrom n = none ↔ (n ≠ 0 ∧ n ≠ 3 ∧ n ≠ 4)) ∧
    (∀ (p : Packet) (t4 now : ℚ), p.flags < 256 →
      NtpSync.compute_time p t4 now ≠
        .error ⟨"Failed to decode leap field in the reply"⟩) := by
  have hleap : ∀ p : Packet, p.flags < 256 → (p.leap).isSome = true := by
    intro p h
    apply leapTryFrom_isSome
    rw [Nat.shiftRight_eq_div_pow]
    omega
  refine ⟨hleap, ?_, ?_⟩
  · intro n
    unfold Mode.tryFrom Mode.val
    split_ifs <;> simp_all
  · intro p t4 now h hcontra
    have hleapsome := hleap p h
    cases hts : p.timestamps with
    | none =>
      simp only [NtpSync.compute_time, hts, Except.error.injEq,
        NtpError.mk.injEq] at hcontra
      exact absurd hcontra (by decide)
    | some t =>
      obtain ⟨t1, t2, t3⟩ := t
      cases hl : p.leap with
      | none => rw [hl] at hleapsome; simp at hleapsome
      | some lp =>
        simp only [NtpSync.compute_time, hts, hl] at hcontra
        exact absurd hcontra (by simp)

/-- Witness for C9 on the client packet (flags byte 227) and mode
ordinal 5. -/
theorem C9_leap_total_mode_gaps_witness :
    ((Packet.new_client_packet 0).leap).isSome = true ∧
    (Mode.tryFrom 5 = none ↔ ((5 : ℕ) ≠ 0 ∧ (5 : ℕ) ≠ 3 ∧ (5 : ℕ) ≠ 4)) ∧
    NtpSync.compute_time (Packet.new_client_packet 0) 0 0 ≠
      .error ⟨"Failed to decode leap field in the reply"⟩ :=
  ⟨C9_leap_total_mode_gaps.1 (Packet.new_client_packet 0) (by decide),
    C9_leap_total_mode_gaps.2.1 5,
    C9_leap_total_mode_gaps.2.2 (Packet.new_client_packet 0) 0 0
      (by decide)⟩

/-- C10: the accept/discard verdict taken inside `sync` is a function of
the reply alone — identical for any two request packets — and a reply
whose originate timestamp differs from the request's transmit timestamp is
still accepted whenever the mode, stratum and nonzero-timestamp checks
pass. -/
theorem C10_verdict_depends_only_on_reply :
    (∀ (reply req1 req2 : Packet),
      NtpSync.syncVerdict req1 reply = NtpSync.syncVerdict req2 reply) ∧
    (∀ (req reply : Packet),
      NtpSync.should_discard_received_packet reply = false →
      reply.org ≠ req.xmt →
      NtpSync.syncVerdict req reply = false) :=
  ⟨fun _ _ _ => rfl, fun _ _ h _ => h⟩

/-- Witness for C10: the worked-example reply does not echo the request's
transmit timestamp 7, yet the verdict still accepts it. -/
theorem C10_verdict_witness :
    NtpSync.syncVerdict (Packet.new_client_packet 7) examplePacket = false :=
  C10_verdict_depends_only_on_reply.2 (Packet.new_client_packet 7)
    examplePacket (by decide) (by decide)

end QuickSntp
